import Mathlib

/-!
Verification of the docker client layer (`common/docker/client.go`) of the
weave repository: the reconnecting event-subscription loop with exponential
backoff (`AddObserver`), the container address resolver (`GetContainerIP`)
and the liveness check (`IsContainerNotRunning`), embedded shallowly.

Durations are modelled as natural numbers of nanoseconds (Go `time.Duration`
is an integer nanosecond count; every value reached by the loop is
non-negative and far below 2^63, so `Nat` arithmetic coincides with the
source arithmetic).  Go `error` values are modelled by `GoError`; a Go
`(string, error)` return is a `String × Option GoError` pair.
-/

namespace WeaveDocker

/-- Go errors, as far as this client distinguishes them: the typed
`*docker.NoSuchContainer` error (carrying the container id) versus any
other error (carrying its message). -/
inductive GoError where
  | noSuchContainer (id : String)
  | other (msg : String)
deriving DecidableEq, Repr

/-- One entry of `NetworkSettings.Networks` (go-dockerclient
`ContainerNetwork`); only the `IPAddress` field is consulted. -/
structure ContainerNetwork where
  ipAddress : String
deriving DecidableEq, Repr

/-- `docker.NetworkSettings`: the per-network map (`none` models a nil Go
map, `some` an allocated one, as an association list) and the legacy
top-level `IPAddress` field. -/
structure NetworkSettings where
  networks : Option (List (String × ContainerNetwork))
  ipAddress : String
deriving DecidableEq, Repr

/-- `docker.HostConfig`: only the `NetworkMode` field is consulted. -/
structure HostConfig where
  networkMode : String
deriving DecidableEq, Repr

/-- `State` of an inspected container: `Running` and `Restarting` flags. -/
structure ContainerState where
  running : Bool
  restarting : Bool
deriving DecidableEq, Repr

/-- The parts of go-dockerclient `docker.Container` (result of
`InspectContainer`) consulted by this client. -/
structure ContainerInfo where
  networkSettings : NetworkSettings
  hostConfig : HostConfig
  state : ContainerState
deriving DecidableEq, Repr

/-- The shared tail of `GetContainerIP` (lines 146-149 of client.go): if the
legacy `NetworkSettings.IPAddress` field is empty, fail with
`"No IP address found for container " + nameOrID`; otherwise return it. -/
def legacyIPResult (nameOrID : String) (info : ContainerInfo) :
    String × Option GoError :=
  if info.networkSettings.ipAddress = "" then
    ("", some (GoError.other ("No IP address found for container " ++ nameOrID)))
  else
    (info.networkSettings.ipAddress, none)

/-- `Client.GetContainerIP`, as a function of the result of the single
`InspectContainer` call it makes.  Mirrors lines 130-149 of client.go:
propagate an inspect error with an empty address; otherwise, if the
`Networks` map is non-nil, return the `bridge` entry address if present,
else `127.0.0.1` if a `host` entry is present, else fall through to the
legacy field; if the map is nil, return `127.0.0.1` when
`HostConfig.NetworkMode` is `host`, else fall through to the legacy field. -/
def getContainerIP (nameOrID : String)
    (inspectResult : Except GoError ContainerInfo) : String × Option GoError :=
  match inspectResult with
  | Except.error e => ("", some e)
  | Except.ok info =>
    match info.networkSettings.networks with
    | some networks =>
      match networks.lookup "bridge" with
      | some bridgeNetwork => (bridgeNetwork.ipAddress, none)
      | none =>
        match networks.lookup "host" with
        | some _ => ("127.0.0.1", none)
        | none => legacyIPResult nameOrID info
    | none =>
      if info.hostConfig.networkMode = "host" then
        ("127.0.0.1", none)
      else
        legacyIPResult nameOrID info

/-- `Client.GetContainerIP` with the `InspectContainer` collaborator passed
explicitly and its invocations counted by explicit state passing: `calls`
is the number of inspect calls made before entry, the second component the
number made by return.  The body performs one `inspect` call and then
resolves purely from its result (lines 130-149 of client.go). -/
def getContainerIPCounting (inspect : String → Except GoError ContainerInfo)
    (nameOrID : String) (calls : Nat) : (String × Option GoError) × Nat :=
  let r := inspect nameOrID
  let calls := calls + 1
  (getContainerIP nameOrID r, calls)

/-- `Client.IsContainerNotRunning`, as a function of the result of its
`InspectContainer` call (lines 115-125 of client.go): on success,
`!State.Running || State.Restarting`; on a `*docker.NoSuchContainer`
error, `true`; on any other error, `false` (after logging). -/
def isContainerNotRunning (inspectResult : Except GoError ContainerInfo) :
    Bool :=
  match inspectResult with
  | Except.ok container => !container.state.running || container.state.restarting
  | Except.error (GoError.noSuchContainer _) => true
  | Except.error (GoError.other _) => false

/-- `InitialInterval = 1 * time.Second` (client.go line 15), in nanoseconds. -/
def InitialInterval : Nat := 1000000000

/-- `MaxInterval = 20 * time.Second` (client.go line 16), in nanoseconds. -/
def MaxInterval : Nat := 20000000000

/-- The growth applied to `retryInterval` after each sleep (client.go lines
106-109): `retryInterval = retryInterval * 3 / 2`, then capped at
`MaxInterval`.  Go integer division on these non-negative values agrees
with `Nat` division. -/
def growRetryInterval (retryInterval : Nat) : Nat :=
  let retryInterval := retryInterval * 3 / 2
  if retryInterval > MaxInterval then MaxInterval else retryInterval

/-- What one iteration of the `AddObserver` subscription loop observes:
either `AddEventListener` fails, or a stream is established and later
closes after staying open for `connDuration` nanoseconds
(`time.Since(start)` at the closed-channel check). -/
inductive LoopEvent where
  | openFailed
  | streamClosed (connDuration : Nat)
deriving DecidableEq, Repr

/-- One iteration of the `AddObserver` background loop (client.go lines
83-110) as a function of the current `retryInterval` and the iteration's
outcome, returning the duration slept (`time.Sleep(retryInterval)`) and
the `retryInterval` carried into the next iteration.  On `openFailed` the
interval is slept as is; on `streamClosed d` the interval is first reset
to `InitialInterval` when `d > retryInterval` (the connection outlived the
interval in effect when it was established), then slept; in both cases
growth is applied after the sleep. -/
def loopStep (retryInterval : Nat) (ev : LoopEvent) : Nat × Nat :=
  match ev with
  | LoopEvent.openFailed =>
    (retryInterval, growRetryInterval retryInterval)
  | LoopEvent.streamClosed connDuration =>
    let retryInterval :=
      if connDuration > retryInterval then InitialInterval else retryInterval
    (retryInterval, growRetryInterval retryInterval)

/-- The `AddObserver` background loop run over a finite prefix of its
(infinite) execution: starting from `retryInterval`, returns the list of
slept durations in order and the interval carried past the prefix. -/
def runLoop (retryInterval : Nat) : List LoopEvent → List Nat × Nat
  | [] => ([], retryInterval)
  | ev :: evs =>
    let s := loopStep retryInterval ev
    let rest := runLoop s.2 evs
    (s.1 :: rest.1, rest.2)

/-- The interval slept on the (n+1)-th consecutive failing iteration when
every iteration fails: `InitialInterval` grown `n` times.  This is what
`runLoop` sleeps at position `n` of an all-failure trace. -/
def backoffSeq : Nat → Nat
  | 0 => InitialInterval
  | n + 1 => growRetryInterval (backoffSeq n)

/-- A recorded invocation of the `ContainerObserver` collaborator. -/
inductive ObsCall where
  | containerStarted (id : String)
  | containerDied (id : String)
deriving DecidableEq, Repr

/-- A `docker.APIEvents` value, as far as the loop consults it: `Status`
and `ID`. -/
structure APIEvent where
  status : String
  id : String
deriving DecidableEq, Repr

/-- The `switch event.Status` body of the event-consumption loop
(client.go lines 90-98): the observer invocations made for one event.  A
`start` event yields one `ContainerStarted(event.ID)` call, a `die` event
one `ContainerDied(event.ID)` call, anything else no call. -/
def handleEvent (event : APIEvent) : List ObsCall :=
  if event.status = "start" then [ObsCall.containerStarted event.id]
  else if event.status = "die" then [ObsCall.containerDied event.id]
  else []

/-- The `for event := range events` loop (client.go lines 89-98): the
observer invocations made for a finite sequence of events received from
one open stream, synchronously and in stream order. -/
def processEvents : List APIEvent → List ObsCall
  | [] => []
  | event :: events => handleEvent event ++ processEvents events

/-- `Client.AddObserver` (client.go lines 80-112): starts the background
subscription loop (whose behaviour over a finite trace of outcomes is
`runLoop InitialInterval trace`) and synchronously returns `nil`.  The
first component models the spawned task, the second the synchronous
return value. -/
def addObserver (trace : List LoopEvent) :
    (List Nat × Nat) × Option GoError :=
  (runLoop InitialInterval trace, none)

/-- Claim C3: whenever the inspected per-network map is present and has a
`bridge` entry, `GetContainerIP` returns that entry's IP address with no
error — even when that address is the empty string — and consults no later
resolution rule (the result depends on nothing else in the metadata). -/
theorem getContainerIP_bridge_rule (nameOrID : String) (info : ContainerInfo)
    (nets : List (String × ContainerNetwork)) (bridgeNetwork : ContainerNetwork)
    (hnets : info.networkSettings.networks = some nets)
    (hbr : nets.lookup "bridge" = some bridgeNetwork) :
    getContainerIP nameOrID (Except.ok info) = (bridgeNetwork.ipAddress, none) := by
  simp [getContainerIP, hnets, hbr]

/-- Witness for C3: a container on the bridge network with an empty
assigned address, a `host` entry, host network mode and a non-empty
legacy field still resolves to the (empty) bridge address. -/
theorem getContainerIP_bridge_rule_witness :
    getContainerIP "c3"
      (Except.ok ⟨⟨some [("bridge", ⟨""⟩), ("host", ⟨"9.9.9.9"⟩)], "10.0.0.5"⟩,
        ⟨"host"⟩, ⟨true, false⟩⟩) = ("", none) :=
  getContainerIP_bridge_rule "c3" _ _ ⟨""⟩ rfl rfl

/-- Claim C5: when no bridge/host rule of `GetContainerIP` applies (any
present network map has neither a `bridge` nor a `host` entry, and an
absent map comes with a network mode other than `host`), a non-empty
legacy IP field is returned with no error, and an empty one produces a
no-address-found error whose message ends with the queried identifier. -/
theorem getContainerIP_legacy_rule (nameOrID : String) (info : ContainerInfo)
    (hno : ∀ nets, info.networkSettings.networks = some nets →
      nets.lookup "bridge" = none ∧ nets.lookup "host" = none)
    (hmode : info.networkSettings.networks = none →
      info.hostConfig.networkMode ≠ "host") :
    (info.networkSettings.ipAddress ≠ "" →
      getContainerIP nameOrID (Except.ok info) =
        (info.networkSettings.ipAddress, none)) ∧
    (info.networkSettings.ipAddress = "" →
      ∃ msg, getContainerIP nameOrID (Except.ok info) =
        ("", some (GoError.other msg)) ∧ ∃ p, msg = p ++ nameOrID) := by
  have hleg : getContainerIP nameOrID (Except.ok info) =
      legacyIPResult nameOrID info := by
    cases hn : info.networkSettings.networks with
    | none => simp [getContainerIP, hn, hmode hn]
    | some nets => simp [getContainerIP, hn, (hno nets hn).1, (hno nets hn).2]
  constructor
  · intro hip
    rw [hleg, legacyIPResult, if_neg hip]
  · intro hip
    exact ⟨"No IP address found for container " ++ nameOrID,
      by rw [hleg, legacyIPResult, if_pos hip],
      "No IP address found for container ", rfl⟩

/-- Witness for C5: with a network map holding only an unrelated entry and
a non-empty legacy field, the legacy address is returned. -/
theorem getContainerIP_legacy_rule_witness :
    getContainerIP "c5"
      (Except.ok ⟨⟨some [("weavenet", ⟨"10.2.3.4"⟩)], "10.0.0.5"⟩,
        ⟨"default"⟩, ⟨true, false⟩⟩) = ("10.0.0.5", none) :=
  (getContainerIP_legacy_rule "c5" _
    (fun nets h => by injection h with h; subst h; exact ⟨rfl, rfl⟩)
    (fun h => Option.noConfusion h)).1 (by decide)

/-- Claim C6: `GetContainerIP` performs exactly one inspect call per
invocation (the call counter always advances by exactly one, whatever the
collaborator returns), and when inspect fails — a not-found cause
included — the failure is returned at once with the underlying error and
an empty address, no resolution rule being consulted. -/
theorem getContainerIP_single_inspect
    (inspect : String → Except GoError ContainerInfo)
    (nameOrID : String) (calls : Nat) :
    (getContainerIPCounting inspect nameOrID calls).2 = calls + 1 ∧
    ∀ e, inspect nameOrID = Except.error e →
      (getContainerIPCounting inspect nameOrID calls).1 = ("", some e) := by
  refine ⟨rfl, fun e he => ?_⟩
  simp [getContainerIPCounting, he, getContainerIP]

/-- Witness for C6: a collaborator that always fails with a not-found
error yields exactly one call and the propagated error. -/
theorem getContainerIP_single_inspect_witness :
    (getContainerIPCounting
      (fun _ => Except.error (GoError.noSuchContainer "gone")) "c6" 0).2 = 1 ∧
    (getContainerIPCounting
      (fun _ => Except.error (GoError.noSuchContainer "gone")) "c6" 0).1 =
      ("", some (GoError.noSuchContainer "gone")) :=
  ⟨(getContainerIP_single_inspect
      (fun _ => Except.error (GoError.noSuchContainer "gone")) "c6" 0).1,
    (getContainerIP_single_inspect
      (fun _ => Except.error (GoError.noSuchContainer "gone")) "c6" 0).2 _ rfl⟩

/-- Claim C8: `AddObserver` synchronously returns a nil error for every
possible behaviour of the background loop it spawns; stream-establishment
failures live entirely inside the spawned loop (`runLoop`), never in the
synchronous return value. -/
theorem addObserver_returns_nil (trace : List LoopEvent) :
    (addObserver trace).2 = none ∧
    (addObserver trace).1 = runLoop InitialInterval trace :=
  ⟨rfl, rfl⟩

/-- Claim C9: `IsContainerNotRunning` is true exactly when inspect
succeeds with a state that is not running or is restarting, or fails with
the typed no-such-container error; any other inspect failure gives
false. -/
theorem isContainerNotRunning_iff (r : Except GoError ContainerInfo) :
    isContainerNotRunning r = true ↔
      (∃ c, r = Except.ok c ∧
        (c.state.running = false ∨ c.state.restarting = true)) ∨
      (∃ id, r = Except.error (GoError.noSuchContainer id)) := by
  cases r with
  | ok c =>
    simp only [isContainerNotRunning, Bool.or_eq_true, Bool.not_eq_true']
    constructor
    · intro h
      exact Or.inl ⟨c, rfl, h⟩
    · rintro (⟨c0, hc, h⟩ | ⟨id, hid⟩)
      · injection hc with hc; subst hc; exact h
      · exact Except.noConfusion hid
  | error e =>
    cases e with
    | noSuchContainer id =>
      simp [isContainerNotRunning]
    | other msg =>
      simp [isContainerNotRunning]

/-- Witness for C9: the typed not-found error reports not running. -/
theorem isContainerNotRunning_iff_witness :
    isContainerNotRunning (Except.error (GoError.noSuchContainer "c9")) = true :=
  (isContainerNotRunning_iff (Except.error (GoError.noSuchContainer "c9"))).2
    (Or.inr ⟨"c9", rfl⟩)

/-- Claim C10: on every failing path of `GetContainerIP` the returned
address component is empty: a present error is never paired with a
non-empty address. -/
theorem getContainerIP_error_empty_address (nameOrID : String)
    (r : Except GoError ContainerInfo) (e : GoError)
    (h : (getContainerIP nameOrID r).2 = some e) :
    (getContainerIP nameOrID r).1 = "" := by
  cases r with
  | error e0 => rfl
  | ok info =>
    have hleg : ∀ i : ContainerInfo,
        (legacyIPResult nameOrID i).2 = some e →
        (legacyIPResult nameOrID i).1 = "" := by
      intro i hi
      by_cases hip : i.networkSettings.ipAddress = ""
      · rw [legacyIPResult, if_pos hip]
      · rw [legacyIPResult, if_neg hip] at hi
        exact Option.noConfusion hi
    cases hn : info.networkSettings.networks with
    | none =>
      by_cases hm : info.hostConfig.networkMode = "host"
      · simp [getContainerIP, hn, hm] at h
      · simp only [getContainerIP, hn, if_neg hm] at h ⊢
        exact hleg info h
    | some nets =>
      cases hb : nets.lookup "bridge" with
      | some bridgeNetwork => simp [getContainerIP, hn, hb] at h
      | none =>
        cases hh : nets.lookup "host" with
        | some hostNetwork => simp [getContainerIP, hn, hb, hh] at h
        | none =>
          simp only [getContainerIP, hn, hb, hh] at h ⊢
          exact hleg info h

/-- Witness for C10: an inspect failure yields an empty address. -/
theorem getContainerIP_error_empty_address_witness :
    (getContainerIP "c10" (Except.error (GoError.other "boom"))).1 = "" :=
  getContainerIP_error_empty_address "c10" (Except.error (GoError.other "boom"))
    (GoError.other "boom") rfl

/-- Claim C7: a `start` event produces exactly one `ContainerStarted`
invocation with the event's identifier and nothing else, a `die` event
exactly one `ContainerDied` invocation, any other status no invocation;
and the invocations of a stream are emitted synchronously in stream
order (each event's calls precede the calls of the events after it). -/
theorem event_dispatch_rule (event : APIEvent) (events : List APIEvent) :
    (event.status = "start" →
      handleEvent event = [ObsCall.containerStarted event.id]) ∧
    (event.status = "die" →
      handleEvent event = [ObsCall.containerDied event.id]) ∧
    (event.status ≠ "start" → event.status ≠ "die" → handleEvent event = []) ∧
    processEvents (event :: events) =
      handleEvent event ++ processEvents events := by
  refine ⟨fun hs => ?_, fun hd => ?_, fun hns hnd => ?_, rfl⟩
  · rw [handleEvent, if_pos hs]
  · rw [handleEvent, hd]
    rfl
  · rw [handleEvent, if_neg hns, if_neg hnd]

/-- Witness for C7: concrete `start`, `die` and other events dispatch as
stated and in order. -/
theorem event_dispatch_rule_witness :
    handleEvent ⟨"start", "a"⟩ = [ObsCall.containerStarted "a"] ∧
    handleEvent ⟨"die", "b"⟩ = [ObsCall.containerDied "b"] ∧
    handleEvent ⟨"stop", "c"⟩ = [] ∧
    processEvents [⟨"start", "a"⟩, ⟨"die", "b"⟩] =
      handleEvent ⟨"start", "a"⟩ ++ processEvents [⟨"die", "b"⟩] :=
  ⟨(event_dispatch_rule ⟨"start", "a"⟩ []).1 rfl,
    (event_dispatch_rule ⟨"die", "b"⟩ []).2.1 rfl,
    (event_dispatch_rule ⟨"stop", "c"⟩ []).2.2.1 (by decide) (by decide),
    (event_dispatch_rule ⟨"start", "a"⟩ [⟨"die", "b"⟩]).2.2.2⟩

/-- Counterexample to C4 as stated: with a nil network map, network mode
`default` (not `host`) and legacy IP field `127.0.0.1`, `GetContainerIP`
returns `127.0.0.1` with no error through the legacy rule — a third
situation beyond the two the claim declares exhaustive. -/
theorem getContainerIP_loopback_cex :
    getContainerIP "c4"
      (Except.ok ⟨⟨none, "127.0.0.1"⟩, ⟨"default"⟩, ⟨true, false⟩⟩) =
      ("127.0.0.1", none) ∧
    (⟨⟨none, "127.0.0.1"⟩, ⟨"default"⟩, ⟨true, false⟩⟩ :
      ContainerInfo).networkSettings.networks = none ∧
    (⟨⟨none, "127.0.0.1"⟩, ⟨"default"⟩, ⟨true, false⟩⟩ :
      ContainerInfo).hostConfig.networkMode ≠ "host" :=
  ⟨rfl, rfl, by decide⟩

/-- Claim C4 as amended: `GetContainerIP` returns `127.0.0.1` with no
error exactly when a present network map has no `bridge` entry but has a
`host` entry, or the map is absent and the network mode is `host`, or —
the address-coincidence cases the original claim omits — a present
`bridge` entry's address is itself `127.0.0.1`, or the legacy rule is
reached with the legacy field equal to `127.0.0.1`. -/
theorem getContainerIP_loopback_iff (nameOrID : String) (info : ContainerInfo) :
    getContainerIP nameOrID (Except.ok info) = ("127.0.0.1", none) ↔
      (∃ nets, info.networkSettings.networks = some nets ∧
        nets.lookup "bridge" = none ∧ (nets.lookup "host").isSome = true) ∨
      (info.networkSettings.networks = none ∧
        info.hostConfig.networkMode = "host") ∨
      (∃ nets bridgeNetwork, info.networkSettings.networks = some nets ∧
        nets.lookup "bridge" = some bridgeNetwork ∧
        bridgeNetwork.ipAddress = "127.0.0.1") ∨
      (((∃ nets, info.networkSettings.networks = some nets ∧
          nets.lookup "bridge" = none ∧ nets.lookup "host" = none) ∨
        (info.networkSettings.networks = none ∧
          info.hostConfig.networkMode ≠ "host")) ∧
        info.networkSettings.ipAddress = "127.0.0.1") := by
  have hlegacy : ∀ i : ContainerInfo,
      legacyIPResult nameOrID i = ("127.0.0.1", none) ↔
      i.networkSettings.ipAddress = "127.0.0.1" := by
    intro i
    by_cases hip : i.networkSettings.ipAddress = ""
    · rw [legacyIPResult, if_pos hip, hip]
      exact ⟨fun hcontra => absurd
          (show ("" : String) = "127.0.0.1" from congrArg Prod.fst hcontra)
          (by decide),
        fun hcontra => absurd hcontra (by decide)⟩
    · rw [legacyIPResult, if_neg hip]
      exact ⟨fun h => congrArg Prod.fst h, fun h => by rw [h]⟩
  cases hn : info.networkSettings.networks with
  | none =>
    by_cases hm : info.hostConfig.networkMode = "host"
    · have hres : getContainerIP nameOrID (Except.ok info) =
          ("127.0.0.1", none) := by
        simp only [getContainerIP, hn, if_pos hm]
      rw [hres]
      exact ⟨fun _ => Or.inr (Or.inl ⟨rfl, hm⟩), fun _ => rfl⟩
    · have hres : getContainerIP nameOrID (Except.ok info) =
          legacyIPResult nameOrID info := by
        simp only [getContainerIP, hn, if_neg hm]
      rw [hres, hlegacy info]
      constructor
      · intro hip
        exact Or.inr (Or.inr (Or.inr ⟨Or.inr ⟨rfl, hm⟩, hip⟩))
      · rintro (⟨nets0, hsome, _, _⟩ | ⟨_, hmode⟩ |
          ⟨nets0, br0, hsome, _, _⟩ | ⟨hcase, hip⟩)
        · exact Option.noConfusion hsome
        · exact absurd hmode hm
        · exact Option.noConfusion hsome
        · rcases hcase with ⟨nets0, hsome, _, _⟩ | ⟨_, _⟩
          · exact Option.noConfusion hsome
          · exact hip
  | some nets =>
    cases hb : nets.lookup "bridge" with
    | some bridgeNetwork =>
      have hres : getContainerIP nameOrID (Except.ok info) =
          (bridgeNetwork.ipAddress, none) := by
        simp only [getContainerIP, hn, hb]
      rw [hres]
      constructor
      · intro heq
        exact Or.inr (Or.inr (Or.inl ⟨nets, bridgeNetwork, rfl, hb,
          show bridgeNetwork.ipAddress = "127.0.0.1" from congrArg Prod.fst heq⟩))
      · rintro (⟨nets0, hsome, hbn, _⟩ | ⟨hnone, _⟩ |
          ⟨nets0, br0, hsome, hbr0, hip0⟩ | ⟨hcase, hip⟩)
        · injection hsome with hsome; subst hsome
          rw [hb] at hbn; exact Option.noConfusion hbn
        · exact Option.noConfusion hnone
        · injection hsome with hsome; subst hsome
          rw [hb] at hbr0; injection hbr0 with hbr0; subst hbr0
          rw [hip0]
        · rcases hcase with ⟨nets0, hsome, hbn, _⟩ | ⟨hnone, _⟩
          · injection hsome with hsome; subst hsome
            rw [hb] at hbn; exact Option.noConfusion hbn
          · exact Option.noConfusion hnone
    | none =>
      cases hh : nets.lookup "host" with
      | some hostNetwork =>
        have hres : getContainerIP nameOrID (Except.ok info) =
            ("127.0.0.1", none) := by
          simp only [getContainerIP, hn, hb, hh]
        rw [hres]
        constructor
        · intro _
          refine Or.inl ⟨nets, rfl, hb, ?_⟩
          simp [hh]
        · intro _
          rfl
      | none =>
        have hres : getContainerIP nameOrID (Except.ok info) =
            legacyIPResult nameOrID info := by
          simp only [getContainerIP, hn, hb, hh]
        rw [hres, hlegacy info]
        constructor
        · intro hip
          exact Or.inr (Or.inr (Or.inr ⟨Or.inl ⟨nets, rfl, hb, hh⟩, hip⟩))
        · rintro (⟨nets0, hsome, _, hhs⟩ | ⟨hnone, _⟩ |
            ⟨nets0, br0, hsome, hbr0, _⟩ | ⟨_, hip⟩)
          · injection hsome with hsome; subst hsome
            rw [hh] at hhs; simp at hhs
          · exact Option.noConfusion hnone
          · injection hsome with hsome; subst hsome
            rw [hb] at hbr0; exact Option.noConfusion hbr0
          · exact hip

/-- Witness for amended C4: a present map with a `host` entry and no
`bridge` entry resolves to the loopback address. -/
theorem getContainerIP_loopback_iff_witness :
    getContainerIP "c4w"
      (Except.ok ⟨⟨some [("mynet", ⟨"9.9.9.9"⟩), ("host", ⟨""⟩)], ""⟩,
        ⟨"default"⟩, ⟨true, false⟩⟩) = ("127.0.0.1", none) :=
  (getContainerIP_loopback_iff "c4w" _).2
    (Or.inl ⟨[("mynet", ⟨"9.9.9.9"⟩), ("host", ⟨""⟩)], rfl, rfl, rfl⟩)

/-- Unfolding of the growth step as a single conditional. -/
lemma growRetryInterval_def (r : Nat) :
    growRetryInterval r =
      if r * 3 / 2 > MaxInterval then MaxInterval else r * 3 / 2 := rfl

/-- The growth step never exceeds the cap. -/
lemma growRetryInterval_le_max (r : Nat) : growRetryInterval r ≤ MaxInterval := by
  rw [growRetryInterval_def]
  split <;> omega

/-- Below the cap, the growth step never shrinks the interval. -/
lemma le_growRetryInterval (r : Nat) (h : r ≤ MaxInterval) :
    r ≤ growRetryInterval r := by
  rw [growRetryInterval_def]
  split <;> omega

/-- Unrolling `backoffSeq` as an iterate of the growth step. -/
lemma backoffSeq_eq_iterate (n : Nat) :
    backoffSeq n = growRetryInterval^[n] InitialInterval := by
  induction n with
  | zero => rfl
  | succ n ih =>
    rw [show backoffSeq (n + 1) = growRetryInterval (backoffSeq n) from rfl, ih]
    exact (Function.iterate_succ_apply' growRetryInterval n InitialInterval).symm

/-- On an all-failure trace, the interval slept at position `n` is the
initial interval grown `n` times. -/
lemma runLoop_replicate_fail : ∀ (N n r : Nat), n < N →
    ((runLoop r (List.replicate N LoopEvent.openFailed)).1)[n]? =
      some (growRetryInterval^[n] r) := by
  intro N
  induction N with
  | zero => intro n r h; exact absurd h (Nat.not_lt_zero n)
  | succ N ih =>
    intro n r h
    rw [List.replicate_succ]
    cases n with
    | zero =>
      have hcons :
          (runLoop r (LoopEvent.openFailed ::
            List.replicate N LoopEvent.openFailed)).1 =
          r :: (runLoop (growRetryInterval r)
            (List.replicate N LoopEvent.openFailed)).1 := rfl
      rw [hcons]
      exact List.getElem?_cons_zero
    | succ n =>
      have hcons :
          (runLoop r (LoopEvent.openFailed ::
            List.replicate N LoopEvent.openFailed)).1 =
          r :: (runLoop (growRetryInterval r)
            (List.replicate N LoopEvent.openFailed)).1 := rfl
      rw [hcons, List.getElem?_cons_succ,
        ih n (growRetryInterval r) (Nat.lt_of_succ_lt_succ h),
        Function.iterate_succ_apply]

/-- From the eighth growth on, the sequence sits at the cap. -/
lemma backoffSeq_stable (k : Nat) : backoffSeq (k + 8) = MaxInterval := by
  induction k with
  | zero => rfl
  | succ k ih =>
    rw [show backoffSeq (k + 1 + 8) = growRetryInterval (backoffSeq (k + 8))
      from rfl, ih]
    rfl

/-- The integer-arithmetic backoff sequence agrees exactly with the
rational `min(1e9 * (3/2)^n, 2e10)` at every index: no rounding occurs
before the cap is reached. -/
lemma backoffSeq_eq_min (n : Nat) :
    (backoffSeq n : ℚ) = min ((10 : ℚ)^9 * (3/2)^n) (2 * 10^10) := by
  match n with
  | 0 =>
    rw [show backoffSeq 0 = 1000000000 from rfl, min_eq_left (by norm_num)]
    norm_num
  | 1 =>
    rw [show backoffSeq 1 = 1500000000 from rfl, min_eq_left (by norm_num)]
    norm_num
  | 2 =>
    rw [show backoffSeq 2 = 2250000000 from rfl, min_eq_left (by norm_num)]
    norm_num
  | 3 =>
    rw [show backoffSeq 3 = 3375000000 from rfl, min_eq_left (by norm_num)]
    norm_num
  | 4 =>
    rw [show backoffSeq 4 = 5062500000 from rfl, min_eq_left (by norm_num)]
    norm_num
  | 5 =>
    rw [show backoffSeq 5 = 7593750000 from rfl, min_eq_left (by norm_num)]
    norm_num
  | 6 =>
    rw [show backoffSeq 6 = 11390625000 from rfl, min_eq_left (by norm_num)]
    norm_num
  | 7 =>
    rw [show backoffSeq 7 = 17085937500 from rfl, min_eq_left (by norm_num)]
    norm_num
  | (n + 8) =>
    rw [backoffSeq_stable n]
    have h1 : ((3 : ℚ)/2)^8 ≤ (3/2)^(n + 8) :=
      pow_le_pow_right₀ (by norm_num) (by omega)
    have h2 : (2 * 10^10 : ℚ) ≤ 10^9 * (3/2)^(n + 8) := by
      calc (2 * 10^10 : ℚ) ≤ 10^9 * (3/2)^8 := by norm_num
        _ ≤ 10^9 * (3/2)^(n + 8) :=
          mul_le_mul_of_nonneg_left h1 (by norm_num)
    rw [min_eq_right h2]
    norm_num [MaxInterval]

/-- Claim C1: on every all-failure trace, the interval slept at 0-based
position `n` — that is, before the (n+1)-th retry — equals exactly
`min(1s * (3/2)^n, 20s)` as a rational number: the integer nanosecond
arithmetic `retryInterval * 3 / 2` capped at `MaxInterval` introduces no
rounding divergence before the cap. -/
theorem backoff_sequence_matches_spec (N n : Nat) (h : n < N) :
    ∃ v : Nat, ((runLoop InitialInterval
        (List.replicate N LoopEvent.openFailed)).1)[n]? = some v ∧
      (v : ℚ) = min ((10 : ℚ)^9 * (3/2)^n) (2 * 10^10) := by
  refine ⟨backoffSeq n, ?_, backoffSeq_eq_min n⟩
  rw [runLoop_replicate_fail N n InitialInterval h, backoffSeq_eq_iterate]

/-- Witness for C1: at the ninth sleep of an all-failure trace the cap has
been reached. -/
theorem backoff_sequence_matches_spec_witness :
    ∃ v : Nat, ((runLoop InitialInterval
        (List.replicate 10 LoopEvent.openFailed)).1)[8]? = some v ∧
      (v : ℚ) = min ((10 : ℚ)^9 * (3/2)^8) (2 * 10^10) :=
  backoff_sequence_matches_spec 10 8 (by decide)

/-- Claim C2: from any interval within `[InitialInterval, MaxInterval]`,
one loop iteration keeps the interval within those bounds; a failed open
attempt sleeps the unchanged interval and never decreases it (monotone
growth across consecutive failures); and after a stream closure the slept
interval — the one in effect for the next retry — is reset to
`InitialInterval` exactly when the connection stayed open strictly longer
than the interval in effect when it was established, and is left
unchanged otherwise. -/
theorem retryInterval_invariants (r : Nat)
    (hlo : InitialInterval ≤ r) (hhi : r ≤ MaxInterval) :
    (∀ ev, InitialInterval ≤ (loopStep r ev).2 ∧
      (loopStep r ev).2 ≤ MaxInterval) ∧
    r ≤ (loopStep r LoopEvent.openFailed).2 ∧
    (loopStep r LoopEvent.openFailed).1 = r ∧
    (∀ d, r < d → (loopStep r (LoopEvent.streamClosed d)).1 = InitialInterval) ∧
    (∀ d, d ≤ r → (loopStep r (LoopEvent.streamClosed d)).1 = r) := by
  refine ⟨fun ev => ?_, le_growRetryInterval r hhi, rfl,
    fun d hd => ?_, fun d hd => ?_⟩
  · cases ev with
    | openFailed =>
      exact ⟨le_trans hlo (le_growRetryInterval r hhi),
        growRetryInterval_le_max r⟩
    | streamClosed d =>
      simp only [loopStep]
      by_cases hd : d > r
      · rw [if_pos hd]
        exact ⟨le_growRetryInterval InitialInterval (by decide),
          growRetryInterval_le_max InitialInterval⟩
      · rw [if_neg hd]
        exact ⟨le_trans hlo (le_growRetryInterval r hhi),
          growRetryInterval_le_max r⟩
  · simp only [loopStep]
    rw [if_pos hd]
  · simp only [loopStep]
    rw [if_neg (Nat.not_lt.mpr hd)]

/-- Witness for C2: at a concrete mid-range interval, a failed open sleeps
the interval unchanged, a long-lived connection resets the next sleep to
the initial interval, and a short-lived one leaves it unchanged. -/
theorem retryInterval_invariants_witness :
    (loopStep 2250000000 LoopEvent.openFailed).1 = 2250000000 ∧
    (loopStep 2250000000 (LoopEvent.streamClosed 3000000000)).1 =
      InitialInterval ∧
    (loopStep 2250000000 (LoopEvent.streamClosed 1000000000)).1 =
      2250000000 := by
  have h := retryInterval_invariants 2250000000 (by decide) (by decide)
  exact ⟨h.2.2.1, h.2.2.2.1 3000000000 (by decide),
    h.2.2.2.2 1000000000 (by decide)⟩

end WeaveDocker
